import Mathlib

/-!
Verification of `chrome/browser/browseros_server/browseros_server_prefs.cc`
(the BrowserOS server preference registrar) against its specification.

The registrar declares four preference keys with hardcoded defaults to a
`PrefRegistrySimple`.  We embed the registry as a partial map from key
strings to typed preference values, together with the trace of typed
registration calls the registrar performs, and transcribe
`RegisterLocalStatePrefs` call for call.
-/

/-- A registered preference value: `RegisterIntegerPref` stores an integer
default, `RegisterBooleanPref` a boolean default. -/
inductive PrefValue where
  | intVal (n : Int) : PrefValue
  | boolVal (b : Bool) : PrefValue
deriving DecidableEq, Repr

/-- The kind of a preference entry (the data model's value kind). -/
inductive PrefKind where
  | int : PrefKind
  | bool : PrefKind
deriving DecidableEq, Repr

/-- One typed registration call made against the registry: either
`RegisterIntegerPref(key, default)` or `RegisterBooleanPref(key, default)`. -/
inductive RegCall where
  | regInt (key : String) (default : Int) : RegCall
  | regBool (key : String) (default : Bool) : RegCall
deriving DecidableEq, Repr

/-- The key string a registration call passes to the registry. -/
def RegCall.key : RegCall → String
  | .regInt k _ => k
  | .regBool k _ => k

/-- The typed primitive (integer or boolean) a registration call uses. -/
def RegCall.kind : RegCall → PrefKind
  | .regInt _ _ => .int
  | .regBool _ _ => .bool

/-- The pure value store of a `PrefRegistrySimple`: a partial map from key
strings to default values; `none` means the key is not registered. -/
def Registry : Type := String → Option PrefValue

/-- A registry together with the trace of registration calls performed on
it, so that both the resulting state and the sequence of primitive calls
of the registrar can be inspected. -/
structure RegistryState where
  prefs : Registry
  calls : List RegCall

/-- Store `v` under `key`, leaving every other key untouched. -/
def setPref (key : String) (v : PrefValue) (r : Registry) : Registry :=
  fun k => if k = key then some v else r k

/-- `PrefRegistrySimple::RegisterIntegerPref`: registers `key` with integer
default `default` and logs the call. -/
def RegisterIntegerPref (key : String) (default : Int) (s : RegistryState) :
    RegistryState :=
  { prefs := setPref key (PrefValue.intVal default) s.prefs
    calls := s.calls ++ [RegCall.regInt key default] }

/-- `PrefRegistrySimple::RegisterBooleanPref`: registers `key` with boolean
default `default` and logs the call. -/
def RegisterBooleanPref (key : String) (default : Bool) (s : RegistryState) :
    RegistryState :=
  { prefs := setPref key (PrefValue.boolVal default) s.prefs
    calls := s.calls ++ [RegCall.regBool key default] }

/-- `kCDPServerPort`: CDP server port preference key (source line 12). -/
def kCDPServerPort : String := "browseros.server.cdp_port"

/-- `kMCPServerPort`: MCP server port preference key (source line 15). -/
def kMCPServerPort : String := "browseros.server.mcp_port"

/-- `kAgentServerPort`: Agent server port preference key (source line 18). -/
def kAgentServerPort : String := "browseros.server.agent_port"

/-- `kMCPServerEnabled`: MCP-server-enabled preference key (source line 21). -/
def kMCPServerEnabled : String := "browseros.server.mcp_enabled"

/-- Modelled from the spec: `kDefaultCDPPort` is declared in
`browseros_server_prefs.h`, which is not under `src/`; the source comment
"CDP port: default 9223" and the spec's data-model table give 9223. -/
def kDefaultCDPPort : Int := 9223

/-- Modelled from the spec: `kDefaultMCPPort` is declared in
`browseros_server_prefs.h`, which is not under `src/`; the source comment
"MCP port: default 9233" and the spec (revision 2) give 9233. -/
def kDefaultMCPPort : Int := 9233

/-- Modelled from the spec: `kDefaultAgentPort` is declared in
`browseros_server_prefs.h`, which is not under `src/`; the source comment
"Agent port: default 9243" and the spec (revision 2) give 9243. -/
def kDefaultAgentPort : Int := 9243

/-- `RegisterLocalStatePrefs` (revision 2, the revision under `src/`):
registers the CDP port, the MCP port, the Agent port and the MCP-enabled
flag, in the source order, with their defaults. -/
def RegisterLocalStatePrefs (registry : RegistryState) : RegistryState :=
  RegisterBooleanPref kMCPServerEnabled true
    (RegisterIntegerPref kAgentServerPort kDefaultAgentPort
      (RegisterIntegerPref kMCPServerPort kDefaultMCPPort
        (RegisterIntegerPref kCDPServerPort kDefaultCDPPort registry)))

/-- Modelled from the spec: revision 1 of the patch is not under `src/`;
per the spec's data-model table it registers the CDP port with default
9223, the MCP port with default 9224 and the MCP-enabled flag with default
true, and it has no Agent port entry.  The key constants are shared with
revision 2. -/
def RegisterLocalStatePrefsRev1 (registry : RegistryState) : RegistryState :=
  RegisterBooleanPref kMCPServerEnabled true
    (RegisterIntegerPref kMCPServerPort 9224
      (RegisterIntegerPref kCDPServerPort 9223 registry))

/-- A fresh registry: no key is registered. -/
def freshRegistry : Registry := fun _ => none

/-- A fresh registry state with an empty call trace. -/
def freshState : RegistryState := { prefs := freshRegistry, calls := [] }

/-- The trace of registration calls one run of `RegisterLocalStatePrefs`
performs on a fresh registry. -/
def registeredCalls : List RegCall := (RegisterLocalStatePrefs freshState).calls

/-- The key strings `RegisterLocalStatePrefs` registers. -/
def registeredKeys : List String := registeredCalls.map RegCall.key

/-- `true` iff the key string begins with the namespace
`browseros.server.` (its first 17 characters are that string). -/
def hasServerNamespace (k : String) : Bool :=
  k.data.take 17 == "browseros.server.".data

/-- Replay a list of registration calls against a pure registry. -/
def applyCall (c : RegCall) (r : Registry) : Registry :=
  match c with
  | .regInt k d => setPref k (PrefValue.intVal d) r
  | .regBool k b => setPref k (PrefValue.boolVal b) r

/-- Replay a sequence of registration calls, first call first. -/
def applyCalls (l : List RegCall) (r : Registry) : Registry :=
  l.foldl (fun t c => applyCall c t) r

/-! ## Helper lemmas -/

/-- Writes to two distinct keys commute. -/
theorem setPref_comm {k₁ k₂ : String} (h : k₁ ≠ k₂) (v₁ v₂ : PrefValue)
    (r : Registry) :
    setPref k₁ v₁ (setPref k₂ v₂ r) = setPref k₂ v₂ (setPref k₁ v₁ r) := by
  funext k
  simp only [setPref]
  by_cases h₁ : k = k₁ <;> by_cases h₂ : k = k₂
  · exact absurd (h₁.symm.trans h₂) h
  · rw [if_pos h₁, if_neg h₂, if_pos h₁]
  · rw [if_neg h₁, if_pos h₂, if_pos h₂]
  · rw [if_neg h₁, if_neg h₂, if_neg h₂, if_neg h₁]

/-- Registration calls on distinct keys (or two copies of one call) commute
on the pure registry. -/
theorem applyCall_comm (c₁ c₂ : RegCall)
    (h : c₁.key ≠ c₂.key ∨ c₁ = c₂) (r : Registry) :
    applyCall c₁ (applyCall c₂ r) = applyCall c₂ (applyCall c₁ r) := by
  rcases h with h | rfl
  · cases c₁ <;> cases c₂ <;>
      exact setPref_comm (by simpa [RegCall.key] using h) _ _ r
  · rfl

/-- The trace of one run of `RegisterLocalStatePrefs`, computed. -/
theorem registeredCalls_eq :
    registeredCalls =
      [RegCall.regInt kCDPServerPort kDefaultCDPPort,
       RegCall.regInt kMCPServerPort kDefaultMCPPort,
       RegCall.regInt kAgentServerPort kDefaultAgentPort,
       RegCall.regBool kMCPServerEnabled true] := rfl

/-- Any two of the registrar's four calls commute on the pure registry. -/
theorem registeredCalls_comm :
    ∀ c₁ ∈ registeredCalls, ∀ c₂ ∈ registeredCalls, ∀ r : Registry,
      applyCall c₁ (applyCall c₂ r) = applyCall c₂ (applyCall c₁ r) := by
  intro c₁ h₁ c₂ h₂ r
  rw [registeredCalls_eq] at h₁ h₂
  simp only [List.mem_cons, List.not_mem_nil, or_false] at h₁ h₂
  rcases h₁ with rfl | rfl | rfl | rfl <;> rcases h₂ with rfl | rfl | rfl | rfl <;>
    exact applyCall_comm _ _ (by decide) r

/-- Replaying a permutation of a list of pairwise-commuting calls yields
the same registry. -/
theorem applyCalls_perm {l₁ l₂ : List RegCall} (h : l₁.Perm l₂)
    (hc : ∀ c₁ ∈ l₁, ∀ c₂ ∈ l₁, ∀ r : Registry,
      applyCall c₁ (applyCall c₂ r) = applyCall c₂ (applyCall c₁ r)) :
    ∀ r : Registry, applyCalls l₁ r = applyCalls l₂ r := by
  induction h with
  | nil => intro r; rfl
  | cons x h ih =>
      intro r
      exact ih (fun c₁ m₁ c₂ m₂ =>
        hc c₁ (List.mem_cons_of_mem x m₁) c₂ (List.mem_cons_of_mem x m₂))
        (applyCall x r)
  | @swap x y l =>
      intro r
      show applyCalls l (applyCall x (applyCall y r))
        = applyCalls l (applyCall y (applyCall x r))
      rw [hc y (by simp) x (by simp) r]
  | trans h₁ h₂ ih₁ ih₂ =>
      intro r
      exact (ih₁ hc r).trans
        (ih₂ (fun c₁ m₁ c₂ m₂ =>
          hc c₁ (h₁.mem_iff.mpr m₁) c₂ (h₁.mem_iff.mpr m₂)) r)

/-- The key name the spec's data-model table gives for the CDP port. -/
def specCdpKey : String := "server.cdp_port"

/-- A key outside the registrar's key set, used as a frame test point. -/
def otherKey : String := "browseros.other.example"

/-! ## Claims -/

/-- C1 (counterexample): the registrar does not register the key string
`server.cdp_port` named in the spec's data-model table; after a run on a
fresh registry that key is still unregistered. -/
theorem spec_key_name_not_registered :
    specCdpKey ∉ registeredKeys ∧
      (RegisterLocalStatePrefs freshState).prefs specCdpKey = none := by
  decide

/-- C1 (amended): the registrar registers exactly four preference keys,
each prefixed with `browseros.`: `browseros.server.cdp_port` via the
integer primitive, `browseros.server.mcp_port` via the integer primitive,
`browseros.server.agent_port` via the integer primitive, and
`browseros.server.mcp_enabled` via the boolean primitive. -/
theorem registered_keys_and_kinds :
    registeredCalls.map (fun c => (c.key, c.kind)) =
      [(r"browseros.server.cdp_port", PrefKind.int),
       (r"browseros.server.mcp_port", PrefKind.int),
       (r"browseros.server.agent_port", PrefKind.int),
       (r"browseros.server.mcp_enabled", PrefKind.bool)] := by
  decide

/-- C2: on a fresh registry, after registration and with no override,
reading the CDP port key yields the integer default 9223 in both
revisions. -/
theorem cdp_port_default_both_revisions :
    (RegisterLocalStatePrefs freshState).prefs kCDPServerPort
        = some (PrefValue.intVal 9223) ∧
      (RegisterLocalStatePrefsRev1 freshState).prefs kCDPServerPort
        = some (PrefValue.intVal 9223) := by
  decide

/-- C3: on a fresh registry, after registration and with no override,
reading the MCP port key yields 9224 under revision 1 and 9233 under
revision 2. -/
theorem mcp_port_default_per_revision :
    (RegisterLocalStatePrefsRev1 freshState).prefs kMCPServerPort
        = some (PrefValue.intVal 9224) ∧
      (RegisterLocalStatePrefs freshState).prefs kMCPServerPort
        = some (PrefValue.intVal 9233) := by
  decide

/-- C4: on a fresh registry, after registration and with no override,
reading the Agent port key yields 9243 under revision 2, while under
revision 1 the key does not resolve at all. -/
theorem agent_port_default_rev2_absent_rev1 :
    (RegisterLocalStatePrefs freshState).prefs kAgentServerPort
        = some (PrefValue.intVal 9243) ∧
      (RegisterLocalStatePrefsRev1 freshState).prefs kAgentServerPort
        = none := by
  decide

/-- C5: on a fresh registry, after registration and with no override,
reading the MCP-enabled key yields the boolean default true in both
revisions. -/
theorem mcp_enabled_default_true_both_revisions :
    (RegisterLocalStatePrefs freshState).prefs kMCPServerEnabled
        = some (PrefValue.boolVal true) ∧
      (RegisterLocalStatePrefsRev1 freshState).prefs kMCPServerEnabled
        = some (PrefValue.boolVal true) := by
  decide

/-- C6: from any starting state, `RegisterLocalStatePrefs` performs
exactly one typed registration call per entry — the integer primitive for
the three port keys with their defaults, then the boolean primitive for
the enabled flag with default true — and nothing else; as a total function
into `RegistryState` it returns no value and has no error path. -/
theorem register_emits_one_typed_call_per_entry (s : RegistryState) :
    (RegisterLocalStatePrefs s).calls =
      s.calls ++
        [RegCall.regInt kCDPServerPort kDefaultCDPPort,
         RegCall.regInt kMCPServerPort kDefaultMCPPort,
         RegCall.regInt kAgentServerPort kDefaultAgentPort,
         RegCall.regBool kMCPServerEnabled true] := by
  simp [RegisterLocalStatePrefs, RegisterBooleanPref, RegisterIntegerPref]

/-- C7: registration only touches the four registered keys; for every
starting state, any key outside the registered key set keeps exactly the
value and registration status it had before, and the four registered keys
end up populated with their defaults. -/
theorem register_frame_other_keys_unchanged (s : RegistryState) (k : String)
    (hk : k ∉ registeredKeys) :
    (RegisterLocalStatePrefs s).prefs k = s.prefs k ∧
      (RegisterLocalStatePrefs s).prefs kCDPServerPort
        = some (PrefValue.intVal kDefaultCDPPort) ∧
      (RegisterLocalStatePrefs s).prefs kMCPServerPort
        = some (PrefValue.intVal kDefaultMCPPort) ∧
      (RegisterLocalStatePrefs s).prefs kAgentServerPort
        = some (PrefValue.intVal kDefaultAgentPort) ∧
      (RegisterLocalStatePrefs s).prefs kMCPServerEnabled
        = some (PrefValue.boolVal true) := by
  simp only [registeredKeys, registeredCalls_eq, List.map_cons, List.map_nil,
    RegCall.key, List.mem_cons, List.not_mem_nil, or_false, not_or,
    kCDPServerPort, kMCPServerPort, kAgentServerPort, kMCPServerEnabled] at hk
  obtain ⟨h₁, h₂, h₃, h₄⟩ := hk
  refine ⟨?_, ?_, ?_, ?_, ?_⟩ <;>
    simp [RegisterLocalStatePrefs, RegisterBooleanPref, RegisterIntegerPref,
      setPref, h₁, h₂, h₃, h₄, kCDPServerPort, kMCPServerPort,
      kAgentServerPort, kMCPServerEnabled]

/-- C7 witness: instantiated at a fresh state and the concrete key
`browseros.other.example`, which is outside the registered key set. -/
theorem register_frame_other_keys_unchanged_witness :
    otherKey ∉ registeredKeys ∧
      ((RegisterLocalStatePrefs freshState).prefs otherKey
          = freshState.prefs otherKey ∧
        (RegisterLocalStatePrefs freshState).prefs kCDPServerPort
          = some (PrefValue.intVal kDefaultCDPPort) ∧
        (RegisterLocalStatePrefs freshState).prefs kMCPServerPort
          = some (PrefValue.intVal kDefaultMCPPort) ∧
        (RegisterLocalStatePrefs freshState).prefs kAgentServerPort
          = some (PrefValue.intVal kDefaultAgentPort) ∧
        (RegisterLocalStatePrefs freshState).prefs kMCPServerEnabled
          = some (PrefValue.boolVal true)) :=
  ⟨by decide, register_frame_other_keys_unchanged freshState otherKey (by decide)⟩

/-- C8: replaying any permutation of the registrar's four registration
calls on a fresh registry produces the same registry as
`RegisterLocalStatePrefs` itself, and the four calls pairwise commute on
any registry because their keys are pairwise distinct. -/
theorem register_calls_perm_invariant :
    (∀ l : List RegCall, l.Perm registeredCalls →
        applyCalls l freshRegistry = (RegisterLocalStatePrefs freshState).prefs) ∧
      (∀ c₁ ∈ registeredCalls, ∀ c₂ ∈ registeredCalls, ∀ r : Registry,
        applyCall c₁ (applyCall c₂ r) = applyCall c₂ (applyCall c₁ r)) := by
  refine ⟨?_, registeredCalls_comm⟩
  intro l hl
  have hc : ∀ c₁ ∈ l, ∀ c₂ ∈ l, ∀ r : Registry,
      applyCall c₁ (applyCall c₂ r) = applyCall c₂ (applyCall c₁ r) :=
    fun c₁ m₁ c₂ m₂ =>
      registeredCalls_comm c₁ (hl.mem_iff.mp m₁) c₂ (hl.mem_iff.mp m₂)
  exact (applyCalls_perm hl hc freshRegistry).trans rfl

/-- C8 witness: the reversed call order yields the same registry as the
source order, and two concrete distinct calls commute. -/
theorem register_calls_perm_invariant_witness :
    applyCalls registeredCalls.reverse freshRegistry
        = (RegisterLocalStatePrefs freshState).prefs ∧
      applyCall (RegCall.regInt kCDPServerPort kDefaultCDPPort)
          (applyCall (RegCall.regBool kMCPServerEnabled true) freshRegistry)
        = applyCall (RegCall.regBool kMCPServerEnabled true)
          (applyCall (RegCall.regInt kCDPServerPort kDefaultCDPPort)
            freshRegistry) :=
  ⟨register_calls_perm_invariant.1 registeredCalls.reverse (by decide),
    register_calls_perm_invariant.2 _ (by decide) _ (by decide) freshRegistry⟩

/-- C9: the four key constants are pairwise distinct strings, so a single
run of `RegisterLocalStatePrefs` never registers the same key twice. -/
theorem registered_keys_nodup :
    registeredKeys.Nodup ∧
      registeredKeys
        = [kCDPServerPort, kMCPServerPort, kAgentServerPort,
           kMCPServerEnabled] := by
  decide

/-- C10: every key `RegisterLocalStatePrefs` registers begins with the
common namespace `browseros.server.`. -/
theorem registered_keys_have_server_namespace :
    registeredKeys.all hasServerNamespace = true := by
  decide
